import Mathlib

set_option maxRecDepth 8192

/-!
Shallow embedding of the RAG pipeline in `src/app.py` (a Streamlit front-end
over an Azure Cognitive Search retriever and an Azure OpenAI chat generator).

Modelling conventions:
  - A backend search result record is a record of optional fields, since the
    Python code reads fields with `result.get(field, default)` (absent allowed)
    except for the content field, which it reads with `result[chunk-key]`
    (absent raises `KeyError`).
  - Relevance scores are only defaulted and passed through, never computed
    with, so they are modelled as rationals instead of floats.
  - A Python function body wrapped in `try/except` that returns `(None, None)`
    on any exception is modelled as returning `Option`.
  - The streamed completion backend is modelled by the observable event
    sequence of one call: either the initial `create` call raises, or it
    yields a finite list of chunks and then either finishes normally or
    raises. Yielded deltas are the values the consumer loop receives.
-/

/-- One result record from the search backend, as selected by
`select=[title, chunk, document_title, author, topic]`; every field may be
absent in a given record, and the backend also attaches an optional
relevance score under the reserved score key. -/
structure SearchResult where
  title : Option String
  chunk : Option String
  document_title : Option String
  author : Option String
  topic : Option String
  search_score : Option Rat
deriving DecidableEq, Repr

/-- The normalized source dictionary appended to `sources` for each backend
record in `retrieve_documents`. -/
structure SourceRecord where
  title : String
  document_title : String
  author : String
  topic : String
  relevance_score : Rat
deriving DecidableEq, Repr

/-- The outcome of the `search_client.search` call: either an ordered list of
result records, or an exception raised by the backend (network, auth,
malformed schema, ...). -/
inductive SearchOutcome where
  | ok (results : List SearchResult)
  | err (msg : String)
deriving DecidableEq, Repr

/-- Normalization of one backend record into a source entry, following the
`result.get(key, default)` reads in `retrieve_documents`: each absent
metadata field defaults to the sentinel `N/A`, an absent score to `0.0`. -/
def normalizeSource (r : SearchResult) : SourceRecord :=
  { title := r.title.getD "N/A"
    document_title := r.document_title.getD "N/A"
    author := r.author.getD "N/A"
    topic := r.topic.getD "N/A"
    relevance_score := r.search_score.getD 0 }

/-- The result-accumulation loop of `retrieve_documents`: for each record in
backend order it appends `result[chunk-key] + two newlines` to the context
and the normalized source entry to the source list. Reading the content
field of a record that lacks it raises `KeyError`, which the surrounding
`except` turns into the `(None, None)` failure return, modelled as `none`. -/
def buildRetrieval : List SearchResult → Option (String × List SourceRecord)
  | [] => some ("", [])
  | r :: rs =>
    match r.chunk with
    | none => none
    | some c =>
      match buildRetrieval rs with
      | none => none
      | some (ctx, srcs) => some (c ++ "\n\n" ++ ctx, normalizeSource r :: srcs)

/-- `retrieve_documents`: runs the hybrid search and folds the results into
`(retrieved_context, sources)`; any exception from the backend call (or from
a record without a content field) is caught and reported as the distinguished
failure value `(None, None)`, modelled as `none`. -/
def retrieve_documents (backend : SearchOutcome) : Option (String × List SourceRecord) :=
  match backend with
  | .err _ => none
  | .ok results => buildRetrieval results

example : retrieve_documents (.ok []) = some ("", []) := by decide
example :
    retrieve_documents (.ok [⟨some "t", some "A", none, none, none, none⟩]) =
      some ("A\n\n", [⟨"t", "N/A", "N/A", "N/A", 0⟩]) := by decide
example : retrieve_documents (.err "boom") = none := by decide
example : retrieve_documents (.ok [⟨none, none, none, none, none, none⟩]) = none := by decide

/-- The incremental payload of one streamed completion chunk
(`chunk.choices[0].delta`); its `content` may be `None`. -/
structure Delta where
  content : Option String
deriving DecidableEq, Repr

/-- One choice of a streamed completion chunk. -/
structure Choice where
  delta : Delta
deriving DecidableEq, Repr

/-- One chunk of the streamed completion; its choice list may be empty. -/
structure Chunk where
  choices : List Choice
deriving DecidableEq, Repr

/-- The observable behaviour of one `chat.completions.create(stream=True)`
call: the initial call raises, or the stream delivers a finite list of
chunks and then either completes normally (`err = none`) or raises while
being iterated (`err = some message`, occurring after the listed chunks). -/
inductive StreamOutcome where
  | createError (msg : String)
  | chunksThen (chunks : List Chunk) (err : Option String)
deriving DecidableEq, Repr

/-- A role-tagged chat message sent to the completion backend. -/
structure Message where
  role : String
  content : String
deriving DecidableEq, Repr

/-- The fixed system instruction of `stream_llm_response`. -/
def system_prompt : String :=
  "\nYou are an intelligent AI assistant specialized in providing accurate, well-structured answers.\n\nGuidelines:\n• Answer based ONLY on the provided context from documents\n• Format responses clearly using markdown (headers, bullet points, bold text)\n• Use line breaks and spacing for readability\n• If information isn\x27t in the context, clearly state: \"I don\x27t have sufficient information in the provided documents to answer that question.\"\n• Be concise yet comprehensive\n• Highlight key points and important information\n"

/-- The exact canonical refusal sentence the system instruction tells the
model to emit when the context is insufficient. -/
def canonicalRefusal : String :=
  "I don\x27t have sufficient information in the provided documents to answer that question."

/-- The label heading the context block of the user turn. -/
def contextLabel : String := "CONTEXT FROM RETRIEVED DOCUMENTS:"

/-- The label heading the question block of the user turn. -/
def questionLabel : String := "USER QUESTION:"

/-- The user-turn f-string of `stream_llm_response`, embedding the retrieved
context and then the user question under their labels. -/
def augmented_prompt (question context : String) : String :=
  "\n" ++ contextLabel ++ "\n" ++ context ++ "\n\n" ++ questionLabel ++ "\n" ++
    question ++ "\n\nPlease provide a well-structured, informative response based on the context above.\n"

/-- The message list passed to `chat.completions.create` by
`stream_llm_response`: the fixed system instruction, then the augmented
user turn. -/
def messagesFor (question context : String) : List Message :=
  [{ role := "system", content := system_prompt },
   { role := "user", content := augmented_prompt question context }]

/-- The one-shot error delta yielded by the `except` clause of
`stream_llm_response`. -/
def errorDelta (e : String) : String := "❌ **Error generating response:** " ++ e

/-- The filter `if chunk.choices and chunk.choices[0].delta.content` of the
yield loop: a chunk contributes its first choice content only when the
choice list is non-empty and the content is neither `None` nor empty. -/
def chunkDelta (c : Chunk) : Option String :=
  match c.choices with
  | [] => none
  | ch :: _ =>
    match ch.delta.content with
    | none => none
    | some s => if s = "" then none else some s

/-- The deltas yielded by one run of the generator `stream_llm_response`:
on the success path the kept chunk contents in arrival order; when the
backend raises (at the initial call, or mid-iteration after some chunks)
the `except` clause appends exactly one final explanatory error delta and
the generator then terminates without raising. -/
def stream_llm_deltas (backend : StreamOutcome) : List String :=
  match backend with
  | .createError e => [errorDelta e]
  | .chunksThen chunks err =>
    chunks.filterMap chunkDelta ++
      (match err with
       | none => []
       | some e => [errorDelta e])

/-- The consumer loop `for chunk in stream_llm_response(...): full_response += chunk`
of the chat handler, accumulated left to right from the empty string. -/
def concatDeltas (l : List String) : String := l.foldl (fun a b => a ++ b) ""

example :
    stream_llm_deltas (.chunksThen [⟨[⟨⟨some "Hi"⟩⟩]⟩, ⟨[]⟩, ⟨[⟨⟨none⟩⟩]⟩, ⟨[⟨⟨some ""⟩⟩]⟩] none) =
      ["Hi"] := by decide
example :
    stream_llm_deltas (.chunksThen [⟨[⟨⟨some "Hi"⟩⟩]⟩] (some "boom")) =
      ["Hi", errorDelta "boom"] := by decide
example : concatDeltas ["a", "b", "c"] = "abc" := by decide

/-- The six environment variables read by `initialize_azure_clients`;
`os.getenv` yields `None` when a variable is absent. -/
structure Env where
  azure_search_endpoint : Option String
  azure_search_key : Option String
  azure_search_index : Option String
  azure_openai_endpoint : Option String
  azure_openai_key : Option String
  azure_openai_deployment : Option String
deriving DecidableEq, Repr

/-- Python truthiness test `not value` on an `os.getenv` result: true for
`None` and for the empty string. -/
def falsyEnv : Option String → Bool
  | none => true
  | some s => s = ""

/-- The `missing_vars` list accumulated by `initialize_azure_clients`, in the
fixed order the six variables are checked. -/
def missingVars (e : Env) : List String :=
  (if falsyEnv e.azure_search_endpoint then ["AZURE_SEARCH_ENDPOINT"] else []) ++
  (if falsyEnv e.azure_search_key then ["AZURE_SEARCH_KEY"] else []) ++
  (if falsyEnv e.azure_search_index then ["AZURE_SEARCH_INDEX"] else []) ++
  (if falsyEnv e.azure_openai_endpoint then ["AZURE_OPENAI_ENDPOINT"] else []) ++
  (if falsyEnv e.azure_openai_key then ["AZURE_OPENAI_KEY"] else []) ++
  (if falsyEnv e.azure_openai_deployment then ["AZURE_OPENAI_CHAT_DEPLOYMENT"] else [])

/-- The value of `initialize_azure_clients`: either both clients, constructed
from the six present values, or the enumerated list of missing variable
names returned in place of the clients. -/
inductive InitResult where
  | clients (searchEndpoint searchIndex searchKey openaiEndpoint openaiKey : String)
  | configError (missing : List String)
deriving DecidableEq, Repr

/-- `initialize_azure_clients`: reads the six variables, returns the missing
name list when any is absent or empty, and otherwise the constructed client
pair. -/
def initialize_azure_clients (e : Env) : InitResult :=
  if missingVars e ≠ [] then .configError (missingVars e)
  else
    .clients (e.azure_search_endpoint.getD "") (e.azure_search_index.getD "")
      (e.azure_search_key.getD "") (e.azure_openai_endpoint.getD "")
      (e.azure_openai_key.getD "")

/-- The module-level startup code after `initialize_azure_clients`: on a
configuration error it renders the enumerated missing names and calls
`st.stop()`, halting the app before any request is served; otherwise the
app runs with the constructed clients. -/
inductive Startup where
  | halted (missing : List String)
  | running
deriving DecidableEq, Repr

/-- Module-level client initialization outcome of the app. -/
def startup (e : Env) : Startup :=
  match initialize_azure_clients e with
  | .configError m => .halted m
  | .clients _ _ _ _ _ => .running

example :
    startup ⟨none, some "k", some "i", some "e", none, some "d"⟩ =
      .halted ["AZURE_SEARCH_ENDPOINT", "AZURE_OPENAI_KEY"] := by decide
example : startup ⟨some "a", some "k", some "i", some "e", some "o", some "d"⟩ = .running := by
  decide

/-- The assistant message appended when `retrieve_documents` returned the
failure value. -/
def retrievalErrorMessage : String :=
  "❌ I\x27m having trouble accessing the document database. Please try again later."

/-- The observable outcome of one run of the chat-input handler: the
assistant message appended to the transcript, the `latest_sources` session
value, whether the search backend was called, and — when the generator was
invoked — the messages it sent to the completion backend. -/
structure ChatOutcome where
  answer : String
  latest_sources : List SourceRecord
  searchInvoked : Bool
  generatorCall : Option (List Message)
deriving DecidableEq, Repr

/-- The chat-input handler (module level, under
`if prompt := st.chat_input(...)`). The walrus-and-truthiness guard skips
the whole body when the submitted prompt is the empty string (or nothing
was submitted), with no validation beyond that; otherwise it calls
`retrieve_documents`, stores `sources if sources else []`, and either
reports the retrieval error (generator not invoked) or streams the
generator and appends the accumulated response. -/
def handle_chat (prompt : String) (search : SearchOutcome) (gen : StreamOutcome) :
    Option ChatOutcome :=
  if prompt = "" then none
  else
    match retrieve_documents search with
    | none =>
      some { answer := retrievalErrorMessage, latest_sources := [],
             searchInvoked := true, generatorCall := none }
    | some (context, sources) =>
      some { answer := concatDeltas (stream_llm_deltas gen), latest_sources := sources,
             searchInvoked := true, generatorCall := some (messagesFor prompt context) }

example :
    handle_chat "q" (.err "down") (.chunksThen [] none) =
      some ⟨retrievalErrorMessage, [], true, none⟩ := by decide
example :
    handle_chat "q" (.ok []) (.chunksThen [⟨[⟨⟨some "Hi"⟩⟩]⟩] none) =
      some ⟨"Hi", [], true, some (messagesFor "q" "")⟩ := rfl
example : handle_chat "" (.ok []) (.chunksThen [] none) = none := by decide

/-- A query is empty after trimming leading and trailing whitespace exactly
when every one of its characters is whitespace; this decidable form is used
because it evaluates in the kernel. -/
def blankQuery (s : String) : Bool := s.data.all Char.isWhitespace

/-! ### Helper lemmas -/

theorem join_cons (x : String) (l : List String) :
    String.join (x :: l) = x ++ String.join l := by
  simp [String.join_eq, String.ext_iff, String.data_append]

theorem intercalate_go_eq (s : String) :
    ∀ (as : List String) (acc : String),
      String.intercalate.go acc s as = acc ++ String.join (as.map fun a => s ++ a) := by
  intro as
  induction as with
  | nil => intro acc; simp [String.intercalate.go, String.join, String.append_empty]
  | cons b t ih =>
    intro acc
    rw [String.intercalate.go, ih, List.map_cons, join_cons]
    simp [String.append_assoc]

theorem join_map_append_sep (sep : String) :
    ∀ (a : String) (as : List String),
      String.join ((a :: as).map fun x => x ++ sep) = String.intercalate sep (a :: as) ++ sep := by
  intro a as
  rw [String.intercalate, intercalate_go_eq, List.map_cons, join_cons]
  induction as generalizing a with
  | nil => simp [String.join, String.append_empty, String.empty_append]
  | cons b t ih =>
    rw [List.map_cons, join_cons, List.map_cons, join_cons]
    have := ih b
    simp only [String.append_assoc] at this ⊢
    rw [this]

theorem concatDeltas_concat (l : List String) (x : String) :
    concatDeltas (l ++ [x]) = concatDeltas l ++ x := by
  simp only [concatDeltas, List.foldl_append]
  rfl

theorem buildRetrieval_eq (rs : List SearchResult) (h : ∀ r ∈ rs, (r.chunk).isSome) :
    buildRetrieval rs =
      some (String.join (rs.map fun r => r.chunk.getD "" ++ "\n\n"), rs.map normalizeSource) := by
  induction rs with
  | nil => simp [buildRetrieval, String.join]
  | cons r rs ih =>
    obtain ⟨c, hc⟩ := Option.isSome_iff_exists.mp (h r (List.mem_cons_self r rs))
    have ih2 := ih fun x hx => h x (List.mem_cons_of_mem _ hx)
    simp [buildRetrieval, hc, ih2, join_cons, String.append_assoc]

theorem chunkDelta_some_ne_empty (c : Chunk) (s : String) (h : chunkDelta c = some s) :
    s ≠ "" := by
  rcases c with ⟨choices⟩
  rcases choices with _ | ⟨⟨⟨content⟩⟩, rest⟩
  · simp [chunkDelta] at h
  · rcases content with _ | t
    · simp [chunkDelta] at h
    · by_cases ht : t = ""
      · simp [chunkDelta, ht] at h
      · simp [chunkDelta, ht] at h
        exact h ▸ ht

theorem mem_singleton_ite (b : Bool) (n m : String) :
    (n ∈ if b then [m] else []) ↔ (b = true ∧ n = m) := by
  cases b <;> simp

/-! ### Claim theorems -/

/-- C3: when the search backend call raises, `retrieve_documents` returns the
failure value `none`, which is distinct from the empty-but-successful result
for zero records; the handler then records the fixed user-visible retrieval
error message with no sources and the generator is never invoked. -/
theorem retrieval_failure_skips_generator (p msg : String) (gen : StreamOutcome)
    (hp : p ≠ "") :
    retrieve_documents (.err msg) = none ∧
    retrieve_documents (.err msg) ≠ retrieve_documents (.ok []) ∧
    handle_chat p (.err msg) gen =
      some { answer := retrievalErrorMessage, latest_sources := [],
             searchInvoked := true, generatorCall := none } := by
  refine ⟨rfl, by simp [retrieve_documents, buildRetrieval], ?_⟩
  simp [handle_chat, retrieve_documents, hp]

/-- Witness for C3 at a concrete request. -/
theorem retrieval_failure_skips_generator_witness :
    retrieve_documents (.err "down") = none ∧
    retrieve_documents (.err "down") ≠ retrieve_documents (.ok []) ∧
    handle_chat "q" (.err "down") (.chunksThen [] none) =
      some { answer := retrievalErrorMessage, latest_sources := [],
             searchInvoked := true, generatorCall := none } :=
  retrieval_failure_skips_generator "q" "down" (.chunksThen [] none) (by decide)

/-- C5: normalization of backend records whose content field is present is
total — retrieval succeeds and returns exactly the normalized records, and
any absent metadata field of a record defaults to the sentinel `N/A`
(an absent relevance score to `0.0`) instead of failing the retrieval. -/
theorem normalization_total (rs : List SearchResult)
    (hchunk : ∀ r ∈ rs, (r.chunk).isSome) :
    (∃ ctx, retrieve_documents (.ok rs) = some (ctx, rs.map normalizeSource)) ∧
    (∀ r : SearchResult, r.title = none → (normalizeSource r).title = "N/A") ∧
    (∀ r : SearchResult, r.document_title = none → (normalizeSource r).document_title = "N/A") ∧
    (∀ r : SearchResult, r.author = none → (normalizeSource r).author = "N/A") ∧
    (∀ r : SearchResult, r.topic = none → (normalizeSource r).topic = "N/A") ∧
    (∀ r : SearchResult, r.search_score = none → (normalizeSource r).relevance_score = 0) := by
  refine ⟨⟨String.join (rs.map fun r => r.chunk.getD "" ++ "\n\n"), ?_⟩, ?_, ?_, ?_, ?_, ?_⟩
  · simp [retrieve_documents, buildRetrieval_eq rs hchunk]
  all_goals intro r hr
  all_goals simp [normalizeSource, hr]

/-- Witness for C5: a record with only the content field present yields a
fully defaulted source entry. -/
theorem normalization_total_witness :
    ∃ ctx, retrieve_documents (.ok [⟨none, some "A", none, none, none, none⟩]) =
      some (ctx, [⟨"N/A", "N/A", "N/A", "N/A", 0⟩]) :=
  (normalization_total [⟨none, some "A", none, none, none, none⟩] (by decide)).1

/-- C6 counterexample: for a single record with content `A` the code returns
the context `A` followed by a double newline, which differs from the
blank-line-separated concatenation (intercalation) of the content fields. -/
theorem context_not_intercalate :
    retrieve_documents (.ok [⟨some "t", some "A", none, none, none, none⟩]) =
      some ("A\n\n", [⟨"t", "N/A", "N/A", "N/A", 0⟩]) ∧
    "A\n\n" ≠ String.intercalate "\n\n" ["A"] := by
  exact ⟨rfl, by decide⟩

/-- C6 amended: for a successful retrieval of one or more records whose
content fields are present, the returned context is the blank-line-separated
concatenation of the content fields in backend order with one additional
trailing double newline, it is non-empty, and the sources are the normalized
records in the same order. -/
theorem context_concatenation (rs : List SearchResult) (hne : rs ≠ [])
    (hchunk : ∀ r ∈ rs, (r.chunk).isSome) :
    retrieve_documents (.ok rs) =
      some (String.intercalate "\n\n" (rs.map fun r => r.chunk.getD "") ++ "\n\n",
            rs.map normalizeSource) ∧
    String.intercalate "\n\n" (rs.map fun r => r.chunk.getD "") ++ "\n\n" ≠ "" := by
  rcases rs with _ | ⟨a, as⟩
  · exact absurd rfl hne
  constructor
  · have hb := buildRetrieval_eq (a :: as) hchunk
    have hmap : (a :: as).map (fun r => r.chunk.getD "" ++ "\n\n") =
        ((a :: as).map fun r => r.chunk.getD "").map fun x => x ++ "\n\n" := by
      simp
    rw [retrieve_documents, hb, hmap, List.map_cons, join_map_append_sep]
  · intro hcontra
    have hlen := congrArg String.length hcontra
    rw [String.length_append] at hlen
    have h2 : ("\n\n" : String).length = 2 := rfl
    have h0 : ("" : String).length = 0 := rfl
    omega

/-- C1 counterexample: for a request whose retrieval succeeds with zero
records, the handler does not short-circuit to a fixed apology with the
generator skipped — it invokes the generator on the empty context (here the
backend streams the text `Hi`, which becomes the recorded answer). -/
theorem empty_retrieval_invokes_generator :
    handle_chat "q" (.ok []) (.chunksThen [⟨[⟨⟨some "Hi"⟩⟩]⟩] none) =
      some { answer := "Hi", latest_sources := [], searchInvoked := true,
             generatorCall := some (messagesFor "q" "") } ∧
    (some (messagesFor "q" "") : Option (List Message)) ≠ none :=
  ⟨rfl, by simp⟩

/-- C1 amended: for every non-empty query whose retrieval succeeds with zero
records, the handler stores an empty source list and invokes the generator
with the empty context; the recorded answer is the generator output (the
insufficient-information refusal is delegated to the model through the
system instruction, not produced by the pipeline). -/
theorem empty_retrieval_generates_on_empty_context (p : String) (gen : StreamOutcome)
    (hp : p ≠ "") :
    handle_chat p (.ok []) gen =
      some { answer := concatDeltas (stream_llm_deltas gen), latest_sources := [],
             searchInvoked := true, generatorCall := some (messagesFor p "") } := by
  simp [handle_chat, retrieve_documents, buildRetrieval, hp]

/-- Witness for C1 amended at a concrete request. -/
theorem empty_retrieval_generates_on_empty_context_witness :
    handle_chat "q" (.ok []) (.createError "boom") =
      some { answer := concatDeltas (stream_llm_deltas (.createError "boom")),
             latest_sources := [], searchInvoked := true,
             generatorCall := some (messagesFor "q" "") } :=
  empty_retrieval_generates_on_empty_context "q" (.createError "boom") (by decide)

/-- C2 counterexample: a whitespace-only query is empty after trimming, yet
the handler does not reject it — the truthiness guard passes and the search
backend is invoked. -/
theorem whitespace_query_not_rejected :
    blankQuery "   " = true ∧
    handle_chat "   " (.ok []) (.chunksThen [] none) =
      some { answer := "", latest_sources := [], searchInvoked := true,
             generatorCall := some (messagesFor "   " "") } :=
  ⟨by decide, rfl⟩

/-- C2 amended: only the exactly-empty query string is dropped (the handler
body is skipped with no backend call); every non-empty query, including a
whitespace-only one, proceeds and invokes the search backend — no trimming
is performed. -/
theorem only_empty_query_rejected (p : String) (search : SearchOutcome)
    (gen : StreamOutcome) (hp : p ≠ "") :
    handle_chat "" search gen = none ∧
    ∃ o, handle_chat p search gen = some o ∧ o.searchInvoked = true := by
  refine ⟨by simp [handle_chat], ?_⟩
  rcases h : retrieve_documents search with _ | ⟨ctx, srcs⟩
  · exact ⟨{ answer := retrievalErrorMessage, latest_sources := [],
             searchInvoked := true, generatorCall := none },
           by simp [handle_chat, hp, h], rfl⟩
  · exact ⟨{ answer := concatDeltas (stream_llm_deltas gen), latest_sources := srcs,
             searchInvoked := true, generatorCall := some (messagesFor p ctx) },
           by simp [handle_chat, hp, h], rfl⟩

/-- Witness for C2 amended at a whitespace-only query. -/
theorem only_empty_query_rejected_witness :
    handle_chat "" (.ok []) (.chunksThen [] none) = none ∧
    ∃ o, handle_chat "   " (.ok []) (.chunksThen [] none) = some o ∧
      o.searchInvoked = true :=
  only_empty_query_rejected "   " (.ok []) (.chunksThen [] none) (by decide)

/-- C4: when the completion backend raises — at the initial call or while the
stream is being iterated — the generator does not propagate the exception:
its delta sequence ends with the single explanatory error delta, the
recorded answer ends with that string, and the outcome still carries the
sources produced by the successful retrieval step. -/
theorem generation_failure_displayable (p e : String) (rs : List SearchResult)
    (gen : StreamOutcome) (chunks : List Chunk) (hp : p ≠ "")
    (hchunk : ∀ r ∈ rs, (r.chunk).isSome)
    (hgen : gen = .createError e ∨ gen = .chunksThen chunks (some e)) :
    (stream_llm_deltas gen).getLast? = some (errorDelta e) ∧
    ∃ o : ChatOutcome, handle_chat p (.ok rs) gen = some o ∧
      o.latest_sources = rs.map normalizeSource ∧
      ∃ pre, o.answer = pre ++ errorDelta e := by
  have hret : retrieve_documents (.ok rs) =
      some (String.join (rs.map fun r => r.chunk.getD "" ++ "\n\n"), rs.map normalizeSource) := by
    simp [retrieve_documents, buildRetrieval_eq rs hchunk]
  rcases hgen with hgen | hgen <;> subst hgen
  · refine ⟨rfl, ⟨{ answer := concatDeltas (stream_llm_deltas (.createError e)),
                    latest_sources := rs.map normalizeSource,
                    searchInvoked := true,
                    generatorCall :=
                      some (messagesFor p
                        (String.join (rs.map fun r => r.chunk.getD "" ++ "\n\n"))) },
      ?_, rfl, ⟨"", rfl⟩⟩⟩
    simp [handle_chat, hp, hret]
  · refine ⟨List.getLast?_concat _,
      ⟨{ answer := concatDeltas (stream_llm_deltas (.chunksThen chunks (some e))),
         latest_sources := rs.map normalizeSource,
         searchInvoked := true,
         generatorCall :=
           some (messagesFor p (String.join (rs.map fun r => r.chunk.getD "" ++ "\n\n"))) },
      ?_, rfl, ⟨concatDeltas (chunks.filterMap chunkDelta), ?_⟩⟩⟩
    · simp [handle_chat, hp, hret]
    · show concatDeltas (chunks.filterMap chunkDelta ++ [errorDelta e]) = _
      exact concatDeltas_concat _ _

/-- Witness for C4 at a concrete failing completion call. -/
theorem generation_failure_displayable_witness :
    (stream_llm_deltas (.createError "boom")).getLast? = some (errorDelta "boom") ∧
    ∃ o : ChatOutcome, handle_chat "q" (.ok []) (.createError "boom") = some o ∧
      o.latest_sources = [] ∧ ∃ pre, o.answer = pre ++ errorDelta "boom" :=
  generation_failure_displayable "q" "boom" [] (.createError "boom") []
    (by decide) (by decide) (Or.inl rfl)

/-- C9: if the streamed backend raises after some chunks were already
delivered, the generator yields exactly the deltas of those chunks in order
followed by one final error delta (the delta list is finite, so iteration
terminates without raising), and the recorded answer is the partial
generated text followed by the explanatory error string. -/
theorem stream_error_appends_single_delta (p e : String) (rs : List SearchResult)
    (chunks : List Chunk) (hp : p ≠ "") (hchunk : ∀ r ∈ rs, (r.chunk).isSome) :
    stream_llm_deltas (.chunksThen chunks (some e)) =
      chunks.filterMap chunkDelta ++ [errorDelta e] ∧
    ∃ o, handle_chat p (.ok rs) (.chunksThen chunks (some e)) = some o ∧
      o.answer = concatDeltas (chunks.filterMap chunkDelta) ++ errorDelta e := by
  have hret : retrieve_documents (.ok rs) =
      some (String.join (rs.map fun r => r.chunk.getD "" ++ "\n\n"), rs.map normalizeSource) := by
    simp [retrieve_documents, buildRetrieval_eq rs hchunk]
  refine ⟨rfl, ⟨{ answer := concatDeltas (stream_llm_deltas (.chunksThen chunks (some e))),
                  latest_sources := rs.map normalizeSource,
                  searchInvoked := true,
                  generatorCall :=
                    some (messagesFor p
                      (String.join (rs.map fun r => r.chunk.getD "" ++ "\n\n"))) },
    ?_, ?_⟩⟩
  · simp [handle_chat, hp, hret]
  · show concatDeltas (chunks.filterMap chunkDelta ++ [errorDelta e]) = _
    exact concatDeltas_concat _ _

/-- Witness for C9: one delta is yielded, then the backend raises. -/
theorem stream_error_appends_single_delta_witness :
    stream_llm_deltas (.chunksThen [⟨[⟨⟨some "Hi"⟩⟩]⟩] (some "boom")) =
      ["Hi", errorDelta "boom"] ∧
    ∃ o, handle_chat "q" (.ok []) (.chunksThen [⟨[⟨⟨some "Hi"⟩⟩]⟩] (some "boom")) = some o ∧
      o.answer = "Hi" ++ errorDelta "boom" :=
  stream_error_appends_single_delta "q" "boom" [] [⟨[⟨⟨some "Hi"⟩⟩]⟩]
    (by decide) (by decide)

/-- C10: every delta yielded on the success path of the streaming generator
is a non-empty string; a chunk with an empty choice list, with `None`
content, or with empty content is skipped rather than yielded. -/
theorem success_deltas_nonempty (chunks : List Chunk) (d : String)
    (hd : d ∈ stream_llm_deltas (.chunksThen chunks none)) :
    d ≠ "" ∧
    chunkDelta ⟨[]⟩ = none ∧
    (∀ cs, chunkDelta ⟨{ delta := { content := none } } :: cs⟩ = none) ∧
    (∀ cs, chunkDelta ⟨{ delta := { content := some "" } } :: cs⟩ = none) := by
  refine ⟨?_, rfl, fun cs => rfl, fun cs => rfl⟩
  have hmem : d ∈ chunks.filterMap chunkDelta := by
    simpa [stream_llm_deltas] using hd
  obtain ⟨c, _, hcd⟩ := List.mem_filterMap.mp hmem
  exact chunkDelta_some_ne_empty c d hcd

/-- Witness for C10 at a concrete stream. -/
theorem success_deltas_nonempty_witness :
    "Hi" ∈ stream_llm_deltas (.chunksThen [⟨[⟨⟨some "Hi"⟩⟩]⟩] none) ∧
    ("Hi" : String) ≠ "" :=
  ⟨by decide, (success_deltas_nonempty [⟨[⟨⟨some "Hi"⟩⟩]⟩] "Hi" (by decide)).1⟩

/-- C7: if any of the six required backend configuration variables is absent
at initialization, startup halts before first use, and the failure carries
the enumerated list of exactly the missing variable names. -/
theorem missing_config_blocks_startup (e : Env)
    (h : e.azure_search_endpoint = none ∨ e.azure_search_key = none ∨
         e.azure_search_index = none ∨ e.azure_openai_endpoint = none ∨
         e.azure_openai_key = none ∨ e.azure_openai_deployment = none) :
    startup e = .halted (missingVars e) ∧
    missingVars e ≠ [] ∧
    (("AZURE_SEARCH_ENDPOINT" ∈ missingVars e) ↔ falsyEnv e.azure_search_endpoint = true) ∧
    (("AZURE_SEARCH_KEY" ∈ missingVars e) ↔ falsyEnv e.azure_search_key = true) ∧
    (("AZURE_SEARCH_INDEX" ∈ missingVars e) ↔ falsyEnv e.azure_search_index = true) ∧
    (("AZURE_OPENAI_ENDPOINT" ∈ missingVars e) ↔ falsyEnv e.azure_openai_endpoint = true) ∧
    (("AZURE_OPENAI_KEY" ∈ missingVars e) ↔ falsyEnv e.azure_openai_key = true) ∧
    (("AZURE_OPENAI_CHAT_DEPLOYMENT" ∈ missingVars e) ↔
      falsyEnv e.azure_openai_deployment = true) := by
  have m1 : ("AZURE_SEARCH_ENDPOINT" ∈ missingVars e) ↔
      falsyEnv e.azure_search_endpoint = true := by
    simp [missingVars, mem_singleton_ite]
  have m2 : ("AZURE_SEARCH_KEY" ∈ missingVars e) ↔ falsyEnv e.azure_search_key = true := by
    simp [missingVars, mem_singleton_ite]
  have m3 : ("AZURE_SEARCH_INDEX" ∈ missingVars e) ↔ falsyEnv e.azure_search_index = true := by
    simp [missingVars, mem_singleton_ite]
  have m4 : ("AZURE_OPENAI_ENDPOINT" ∈ missingVars e) ↔
      falsyEnv e.azure_openai_endpoint = true := by
    simp [missingVars, mem_singleton_ite]
  have m5 : ("AZURE_OPENAI_KEY" ∈ missingVars e) ↔ falsyEnv e.azure_openai_key = true := by
    simp [missingVars, mem_singleton_ite]
  have m6 : ("AZURE_OPENAI_CHAT_DEPLOYMENT" ∈ missingVars e) ↔
      falsyEnv e.azure_openai_deployment = true := by
    simp [missingVars, mem_singleton_ite]
  have hne : missingVars e ≠ [] := by
    rcases h with h | h | h | h | h | h
    · exact List.ne_nil_of_mem (m1.mpr (by simp [falsyEnv, h]))
    · exact List.ne_nil_of_mem (m2.mpr (by simp [falsyEnv, h]))
    · exact List.ne_nil_of_mem (m3.mpr (by simp [falsyEnv, h]))
    · exact List.ne_nil_of_mem (m4.mpr (by simp [falsyEnv, h]))
    · exact List.ne_nil_of_mem (m5.mpr (by simp [falsyEnv, h]))
    · exact List.ne_nil_of_mem (m6.mpr (by simp [falsyEnv, h]))
  refine ⟨?_, hne, m1, m2, m3, m4, m5, m6⟩
  simp [startup, initialize_azure_clients, hne]

/-- Witness for C7: an environment lacking the search endpoint halts startup
with exactly that name enumerated. -/
theorem missing_config_blocks_startup_witness :
    startup ⟨none, some "k", some "i", some "e", some "o", some "d"⟩ =
      .halted ["AZURE_SEARCH_ENDPOINT"] :=
  (missing_config_blocks_startup ⟨none, some "k", some "i", some "e", some "o", some "d"⟩
    (Or.inl rfl)).1

/-- C8: the assembled request is the fixed system instruction followed by the
user turn; the system instruction asserts answering ONLY from the provided
context and contains the exact canonical refusal sentence; and the user turn
places the labelled context block before the labelled question block. -/
theorem prompt_contract (q c : String) :
    messagesFor q c =
      [{ role := "system", content := system_prompt },
       { role := "user", content := augmented_prompt q c }] ∧
    (∃ a b, system_prompt = a ++ (canonicalRefusal ++ b)) ∧
    (∃ a b, system_prompt = a ++ ("Answer based ONLY on the provided context" ++ b)) ∧
    (∃ w z, augmented_prompt q c =
      "\n" ++ (contextLabel ++ ("\n" ++ (c ++ (w ++ (questionLabel ++ ("\n" ++ (q ++ z)))))))) := by
  refine ⟨rfl, ?_, ?_, ?_⟩
  · exact ⟨"\nYou are an intelligent AI assistant specialized in providing accurate, well-structured answers.\n\nGuidelines:\n• Answer based ONLY on the provided context from documents\n• Format responses clearly using markdown (headers, bullet points, bold text)\n• Use line breaks and spacing for readability\n• If information isn\x27t in the context, clearly state: \"",
      "\"\n• Be concise yet comprehensive\n• Highlight key points and important information\n", rfl⟩
  · exact ⟨"\nYou are an intelligent AI assistant specialized in providing accurate, well-structured answers.\n\nGuidelines:\n• ",
      " from documents\n• Format responses clearly using markdown (headers, bullet points, bold text)\n• Use line breaks and spacing for readability\n• If information isn\x27t in the context, clearly state: \"I don\x27t have sufficient information in the provided documents to answer that question.\"\n• Be concise yet comprehensive\n• Highlight key points and important information\n", rfl⟩
  · refine ⟨"\n\n",
      "\n\nPlease provide a well-structured, informative response based on the context above.\n", ?_⟩
    simp [augmented_prompt, String.append_assoc]

/-- Witness for C6 amended at two concrete records. -/
theorem context_concatenation_witness :
    retrieve_documents (.ok [⟨some "t", some "A", none, none, none, none⟩,
                             ⟨none, some "B", none, none, none, some 1⟩]) =
      some (String.intercalate "\n\n" ["A", "B"] ++ "\n\n",
            [⟨"t", "N/A", "N/A", "N/A", 0⟩, ⟨"N/A", "N/A", "N/A", "N/A", 1⟩]) ∧
    String.intercalate "\n\n" ["A", "B"] ++ "\n\n" ≠ "" :=
  context_concatenation
    [⟨some "t", some "A", none, none, none, none⟩, ⟨none, some "B", none, none, none, some 1⟩]
    (by decide) (by decide)

